import Mathlib

/-!
Verification of the voice-to-text capture core (Voice_To_Text.ai).

Shallow embedding of three source units:

* the `useVoiceToText` hook (the spec's SessionController): its state fields
  and the pure state transformers `handleTranscription`, `handleStatusChange`,
  `handleError`, `startRecording`, `stopRecording`, `startPushToTalk`,
  `stopPushToTalk`;
* the `DeepgramService` class (the spec's StreamingTranscriber), in its two
  variants present in `deepgramService.ts`: the Transcript-event parser,
  the `connect` connection-replacement step, and `sendAudio`;
* the derived transcript-assembly function used to state the fold property.

Asynchronous effects (promise resolution, permission prompts, socket events)
are modelled by an explicit environment record supplying their outcomes, and
each callback is a pure function on the hook state.  JavaScript string `.trim()`
is modelled by `String.trim`; JS truthiness of a string is emptiness testing;
JS `a || b` on optional booleans is `a.getD false || b.getD false`, and
`c || 0` on an optional numeric confidence is `Option.getD c 0` (both agree
with JS truthiness on every value a confidence field can take).
-/

/-- ConnectionStatus union type from `types.ts`:
`'disconnected' | 'connecting' | 'connected' | 'error'`. -/
inductive ConnectionStatus where
  | disconnected
  | connecting
  | connected
  | error
deriving DecidableEq, Repr

/-- Error categories of `AppError.type` from `types.ts`:
`'permission' | 'network' | 'api' | 'audio' | 'unknown'`. -/
inductive ErrorKind where
  | permission
  | network
  | api
  | audio
  | unknown
deriving DecidableEq, Repr

/-- AppError from `types.ts`: `{ type, message, details? }`. -/
structure AppError where
  type : ErrorKind
  message : String
  details : Option String := none
deriving DecidableEq, Repr

/-- JavaScript `Error` object, reduced to the only field the hook reads. -/
structure JsError where
  message : String
deriving DecidableEq, Repr

/-- TranscriptionResult from `types.ts`, as produced by the Deepgram
Transcript handlers: `{ text, isFinal, confidence, timestamp }`.
Confidence is a JS number; we model it as a rational. -/
structure TranscriptionResult where
  text : String
  isFinal : Bool
  confidence : ℚ
  timestamp : ℕ
deriving DecidableEq, Repr

/-- State of the `useVoiceToText` hook (the SessionController).
`isRecording`, `isPushToTalkActive`, `connectionStatus`, `error`,
`currentTranscript` (the spec's `pending`), `finalTranscript` (the spec's
`committed`) and `hasPermission` are the hook's `useState` fields;
`connected` is the `isConnectedRef` ref; `audioActive` models whether
`audioCaptureService` currently holds the capture pipeline
(set by `startCapture`, cleared by `stopCapture`). -/
structure HookState where
  isRecording : Bool
  isPushToTalkActive : Bool
  connectionStatus : ConnectionStatus
  error : Option AppError
  currentTranscript : String
  finalTranscript : String
  hasPermission : Option Bool
  connected : Bool
  audioActive : Bool
deriving DecidableEq, Repr

/-- Transcription callback of the hook (`useVoiceToText.ts` lines 63-73):

if `result.isFinal`:
`setFinalTranscript(prev => prev ? (prev + ' ' + result.text).trim() : result.text)`
and `setCurrentTranscript('')`; otherwise
`setCurrentTranscript(prev => prev !== result.text ? result.text : prev)`.
A JS string is truthy exactly when it is nonempty. -/
def handleTranscription (result : TranscriptionResult) (s : HookState) : HookState :=
  if result.isFinal then
    { s with
      finalTranscript :=
        if s.finalTranscript = "" then result.text
        else (s.finalTranscript ++ " " ++ result.text).trim,
      currentTranscript := "" }
  else
    { s with
      currentTranscript :=
        if s.currentTranscript ≠ result.text then result.text
        else s.currentTranscript }

/-- Connection-status callback of the hook (`useVoiceToText.ts` lines 76-82):
records the status and, on `'error'`, clears both recording flags. -/
def handleStatusChange (status : ConnectionStatus) (s : HookState) : HookState :=
  let s1 := { s with connectionStatus := status }
  if status = ConnectionStatus.error then
    { s1 with isRecording := false, isPushToTalkActive := false }
  else s1

/-- Error classifier of the hook (`useVoiceToText.ts` lines 235-242):
lowercases the message and tests substring containment in order. -/
def determineErrorType (e : JsError) : ErrorKind :=
  let m := e.message.toLower
  let has (needle : String) : Bool := decide (needle.toList <:+: m.toList)
  if has "permission" || has "denied" then ErrorKind.permission
  else if has "network" || has "websocket" || has "connection" then ErrorKind.network
  else if has "api" || has "key" then ErrorKind.api
  else if has "audio" || has "microphone" then ErrorKind.audio
  else ErrorKind.unknown

/-- Error callback of the hook (`useVoiceToText.ts` lines 85-92):
wraps the JS error in an `AppError` and stores it.  The `details` field holds
the stack trace in the source; we leave it absent. -/
def handleError (e : JsError) (s : HookState) : HookState :=
  { s with error := some { type := determineErrorType e, message := e.message } }

/-- Message normalisation performed by the Deepgram `Error` handler:
`error.message || 'Deepgram connection error'`. -/
def normalizeDgError (e : JsError) : JsError :=
  { message := if e.message = "" then "Deepgram connection error" else e.message }

/-- Deepgram `Error` socket event as seen by the hook
(`deepgramService.ts`): the service invokes
`onError(new Error(error.message || 'Deepgram connection error'))` and then
`onStatusChange('error')`. -/
def dgErrorEvent (e : JsError) (s : HookState) : HookState :=
  handleStatusChange ConnectionStatus.error (handleError (normalizeDgError e) s)

/-- Outcomes of the asynchronous steps a `startRecording` call can await:
the permission prompt (`none` models the prompt itself throwing),
the Deepgram connect promise (`none` = Open event, `some e` = Error event),
and `audioCaptureService.startCapture` (`none` = success, `some e` = throw). -/
structure Env where
  permissionResult : Option Bool
  connectResult : Option JsError
  captureResult : Option JsError
deriving DecidableEq, Repr

/-- AppError raised by `startRecording` when the API key is absent
(`useVoiceToText.ts` lines 142-145). -/
def apiKeyMissingError : AppError :=
  { type := ErrorKind.api
    message := "Deepgram API key is required. Please configure your API key." }

/-- AppError stored when the permission prompt reports denial
(`useVoiceToText.ts` lines 100-103). -/
def permissionDeniedError : AppError :=
  { type := ErrorKind.permission
    message := "Microphone permission denied. Please grant access in your browser or system settings." }

/-- AppError stored when the permission prompt itself throws
(`useVoiceToText.ts` lines 107-111). -/
def permissionRequestFailedError : AppError :=
  { type := ErrorKind.permission
    message := "Failed to request microphone permission." }

/-- Permission-request helper of the hook (`useVoiceToText.ts` lines 95-114):
returns whether permission was granted together with the updated state. -/
def requestPermission (env : Env) (s : HookState) : Bool × HookState :=
  match env.permissionResult with
  | some granted =>
      let s1 := { s with hasPermission := some granted }
      if granted then (true, s1)
      else (false, { s1 with error := some permissionDeniedError })
  | none =>
      (false, { s with error := some permissionRequestFailedError })

/-- The `startRecording` command (`useVoiceToText.ts` lines 140-182).
Control flow of the source, with each awaited outcome drawn from `env`:
missing key sets an `'api'` error and returns; a call while recording is a
no-op; otherwise the error is cleared, permission is (re-)requested when
known-denied, the Deepgram connection is established when absent (its Open
and Error events invoking the status/error callbacks), audio capture is
started, and only then `isRecording` becomes true.  A rejection of the
connect promise or a `startCapture` throw lands in the catch block, which
applies `handleError`. -/
def startRecording (apiKey : String) (env : Env) (s : HookState) : HookState :=
  if apiKey = "" then { s with error := some apiKeyMissingError }
  else if s.isRecording then s
  else
    let s1 := { s with error := none }
    let step :=
      if s1.hasPermission = some false then requestPermission env s1
      else (true, s1)
    if step.1 = false then step.2
    else
      let s2 := step.2
      if s2.connected = false then
        let s3 := handleStatusChange ConnectionStatus.connecting s2
        match env.connectResult with
        | none =>
            let s4 := { handleStatusChange ConnectionStatus.connected s3 with
                        connected := true }
            match env.captureResult with
            | none => { s4 with audioActive := true, isRecording := true }
            | some e => handleError e s4
        | some e =>
            handleError (normalizeDgError e) (dgErrorEvent e s3)
      else
        match env.captureResult with
        | none => { s2 with audioActive := true, isRecording := true }
        | some e => handleError e s2

/-- The `stopRecording` command (`useVoiceToText.ts` lines 185-190):
stops audio capture, clears `isRecording` and the interim transcript; the
Deepgram connection is deliberately left open. -/
def stopRecording (s : HookState) : HookState :=
  { s with audioActive := false, isRecording := false, currentTranscript := "" }

/-- The `startPushToTalk` command (`useVoiceToText.ts` lines 193-197):
activates push-to-talk, clears the previous final transcript, then runs
`startRecording`. -/
def startPushToTalk (apiKey : String) (env : Env) (s : HookState) : HookState :=
  startRecording apiKey env
    { s with isPushToTalkActive := true, finalTranscript := "" }

/-- The `stopPushToTalk` command (`useVoiceToText.ts` lines 200-203):
deactivates push-to-talk and runs `stopRecording`. -/
def stopPushToTalk (s : HookState) : HookState :=
  stopRecording { s with isPushToTalkActive := false }

/-- Sequential application of transcript events through the hook's
transcription callback, in arrival order. -/
def applyEvents (events : List TranscriptionResult) (s : HookState) : HookState :=
  events.foldl (fun st r => handleTranscription r st) s

/-- Single step of committed-transcript assembly, as the spec words it:
the new text joined to the accumulator with a single separating space and
trimmed; when the accumulator is empty the text is taken verbatim. -/
def joinStep (acc text : String) : String :=
  if acc = "" then text else (acc ++ " " ++ text).trim

/-- Space-joined, trimmed concatenation of a list of texts in order,
starting from the empty committed transcript. -/
def joinTexts (texts : List String) : String :=
  texts.foldl joinStep ""

/-- One alternative of an inbound Deepgram transcript message:
`{ transcript?, confidence? }`.  Fields are optional because the handlers
access them through optional chaining. -/
structure DgAlternative where
  transcript : Option String
  confidence : Option ℚ
deriving DecidableEq, Repr

/-- Channel object of an inbound Deepgram transcript message:
`{ alternatives? }`. -/
structure DgChannel where
  alternatives : Option (List DgAlternative)
deriving DecidableEq, Repr

/-- Inbound Deepgram transcript message, reduced to the fields the
Transcript handlers read: `data.channel`, `data.is_final`,
`data.speech_final`. -/
structure DgMessage where
  channel : Option DgChannel
  is_final : Option Bool
  speech_final : Option Bool
deriving DecidableEq, Repr

/-- The optional chain `data.channel?.alternatives?.[0]?.transcript`. -/
def msgTranscript (m : DgMessage) : Option String :=
  ((m.channel.bind DgChannel.alternatives).bind List.head?).bind DgAlternative.transcript

/-- The optional chain `data.channel?.alternatives?.[0]?.confidence`. -/
def msgConfidence (m : DgMessage) : Option ℚ :=
  ((m.channel.bind DgChannel.alternatives).bind List.head?).bind DgAlternative.confidence

/-- Transcript-event handler of the first `DeepgramService` variant
(`deepgramService.ts` lines 81-91): reads the transcript by optional
chaining, discards the message when the transcript is absent or empty
(JS string truthiness), and otherwise emits one TranscriptionResult with
`isFinal = data.is_final || data.speech_final || false` and
`confidence = data.channel?.alternatives?.[0]?.confidence || 0`.
`now` models `Date.now()`. -/
def transcriptHandlerV1 (m : DgMessage) (now : ℕ) : Option TranscriptionResult :=
  match msgTranscript m with
  | none => none
  | some t =>
      if t = "" then none
      else
        some
          { text := t
            isFinal := m.is_final.getD false || m.speech_final.getD false
            confidence := (msgConfidence m).getD 0
            timestamp := now }

/-- Transcript-event handler of the second `DeepgramService` variant
(`deepgramService.ts` lines 266-277): identical logic to the first variant
apart from an added `console.log`. -/
def transcriptHandlerV2 (m : DgMessage) (now : ℕ) : Option TranscriptionResult :=
  match msgTranscript m with
  | none => none
  | some t =>
      if t = "" then none
      else
        some
          { text := t
            isFinal := m.is_final.getD false || m.speech_final.getD false
            confidence := (msgConfidence m).getD 0
            timestamp := now }

/-- Connection-side state of the second `DeepgramService` variant together
with the world of live sockets it creates.  `connection` is the
`this.connection` field (a connection identifier, `none` when null);
`keepAliveOn` models whether the keep-alive interval is installed;
`live` is the list of sockets that have been created and not yet closed;
`nextId` supplies fresh identifiers for `deepgram.listen.live(...)`. -/
structure DgConnState where
  connection : Option ℕ
  keepAliveOn : Bool
  live : List ℕ
  nextId : ℕ
deriving DecidableEq, Repr

/-- The `connect` method of the second `DeepgramService` variant
(`deepgramService.ts` lines 215-301), followed through its Open event:
with a missing API key it only reports the error (no connection change);
otherwise any existing connection is first torn down
(`stopKeepAlive(); connection.requestClose(); connection = null`, lines
230-239), a fresh socket is created and stored, and the Open event starts
the keep-alive.  `requestClose` removes the old socket from the live set. -/
def connectReplace (apiKey : String) (st : DgConnState) : DgConnState :=
  if apiKey = "" then st
  else
    let st1 :=
      match st.connection with
      | some c =>
          { st with
            keepAliveOn := false
            live := st.live.erase c
            connection := none }
      | none => st
    let c := st1.nextId
    { st1 with
      connection := some c
      live := st1.live ++ [c]
      nextId := st1.nextId + 1
      keepAliveOn := true }

/-- The readiness test of the second `DeepgramService` variant
(`deepgramService.ts` lines 324-333): false without a connection; with one,
open when `getReadyState` is unavailable (`undefined`) or returns
`WebSocket.OPEN = 1`. -/
def isConnectionOpen (connection : Option ℕ) (readyState : Option ℕ) : Bool :=
  match connection with
  | none => false
  | some _ =>
      match readyState with
      | none => true
      | some k => k == 1

/-- The `sendAudio` method of the second `DeepgramService` variant
(`deepgramService.ts` lines 306-319): when a connection exists and is open
the chunk is transmitted (the re-check after `arrayBuffer()` resolves sees
the same state in this synchronous model), otherwise the call only logs a
warning.  Returns the service state and the outbound chunk list. -/
def sendAudio (st : DgConnState) (readyState : Option ℕ) (chunk : ℕ)
    (sent : List ℕ) : DgConnState × List ℕ :=
  if st.connection.isSome && isConnectionOpen st.connection readyState then
    (st, sent ++ [chunk])
  else
    (st, sent)

/-- Applying a list of final events folds `joinStep` over their texts,
starting from the current committed transcript. -/
theorem applyEvents_finalTranscript_foldl (events : List TranscriptionResult)
    (s : HookState) (h : ∀ r ∈ events, r.isFinal = true) :
    (applyEvents events s).finalTranscript =
      (events.map TranscriptionResult.text).foldl joinStep s.finalTranscript := by
  induction events generalizing s with
  | nil => rfl
  | cons r rs ih =>
      have hr : r.isFinal = true := h r (List.mem_cons_self r rs)
      have hrs : ∀ x ∈ rs, x.isFinal = true := fun x hx =>
        h x (List.mem_cons_of_mem r hx)
      show (applyEvents rs (handleTranscription r s)).finalTranscript =
        (rs.map TranscriptionResult.text).foldl joinStep
          (joinStep s.finalTranscript r.text)
      rw [ih (handleTranscription r s) hrs]
      have hstep : (handleTranscription r s).finalTranscript =
          joinStep s.finalTranscript r.text := by
        simp [handleTranscription, hr, joinStep]
      rw [hstep]

/-- C1: applying any sequence of final transcript events through the
SessionController's transcript-event handler, starting from an empty
committed transcript, yields as committed transcript the space-joined,
trimmed concatenation of the events' texts in order (the first text taken
verbatim). -/
theorem c1_final_events_join (events : List TranscriptionResult) (s : HookState)
    (hfin : ∀ r ∈ events, r.isFinal = true) (h0 : s.finalTranscript = "") :
    (applyEvents events s).finalTranscript =
      joinTexts (events.map TranscriptionResult.text) := by
  rw [applyEvents_finalTranscript_foldl events s hfin, h0, joinTexts]

/-- Witness for C1: a concrete final event applied to a concrete empty
transcript produces the concrete joined transcript. -/
theorem c1_final_events_join_witness :
    (∀ r ∈ [TranscriptionResult.mk "hello" true 1 0], r.isFinal = true) ∧
    (HookState.mk false false ConnectionStatus.connected none "" ""
      (some true) true false).finalTranscript = "" ∧
    (applyEvents
        [TranscriptionResult.mk "hello" true 1 0]
        (HookState.mk false false ConnectionStatus.connected none "" ""
          (some true) true false)).finalTranscript =
      joinTexts ["hello"] :=
  ⟨by decide, rfl,
    c1_final_events_join
      [TranscriptionResult.mk "hello" true 1 0]
      (HookState.mk false false ConnectionStatus.connected none "" ""
        (some true) true false)
      (by decide) rfl⟩

/-- C2: an interim event leaves the committed transcript unchanged and
replaces the pending transcript with the event's text only when it differs
from the current pending; a final event always clears the pending
transcript. -/
theorem c2_interim_final_effects (r : TranscriptionResult) (s : HookState) :
    (r.isFinal = false →
      (handleTranscription r s).finalTranscript = s.finalTranscript ∧
      (handleTranscription r s).currentTranscript =
        (if s.currentTranscript ≠ r.text then r.text
         else s.currentTranscript)) ∧
    (r.isFinal = true → (handleTranscription r s).currentTranscript = "") := by
  constructor
  · intro h
    constructor <;> simp [handleTranscription, h]
  · intro h
    simp [handleTranscription, h]

/-- Witness for C2: a concrete interim event and a concrete final event
applied to a concrete state. -/
theorem c2_interim_final_effects_witness :
    ((handleTranscription (TranscriptionResult.mk "hell" false 1 2)
        (HookState.mk true false ConnectionStatus.connected none "he" "hi"
          (some true) true true)).finalTranscript = "hi" ∧
     (handleTranscription (TranscriptionResult.mk "hell" false 1 2)
        (HookState.mk true false ConnectionStatus.connected none "he" "hi"
          (some true) true true)).currentTranscript =
       (if "he" ≠ "hell" then "hell" else "he")) ∧
    (handleTranscription (TranscriptionResult.mk "hello world" true 1 3)
        (HookState.mk true false ConnectionStatus.connected none "hello" "hi"
          (some true) true true)).currentTranscript = "" :=
  ⟨(c2_interim_final_effects (TranscriptionResult.mk "hell" false 1 2)
      (HookState.mk true false ConnectionStatus.connected none "he" "hi"
        (some true) true true)).1 rfl,
   (c2_interim_final_effects (TranscriptionResult.mk "hello world" true 1 3)
      (HookState.mk true false ConnectionStatus.connected none "hello" "hi"
        (some true) true true)).2 rfl⟩

/-- Counterexample for C3: the code carries no CaptureSession id at all, so
an event from a just-ended capture session is not discarded: a final event
arriving after `stopPushToTalk` (the end of the session whose audio produced
it) still mutates the committed transcript. -/
theorem c3_counterexample :
    (handleTranscription (TranscriptionResult.mk "world" true 1 5)
        (stopPushToTalk
          (HookState.mk true true ConnectionStatus.connected none "w" ""
            (some true) true true))).finalTranscript ≠
      (stopPushToTalk
        (HookState.mk true true ConnectionStatus.connected none "w" ""
          (some true) true true)).finalTranscript := by
  decide

/-- C3 amended: the transcript-event handler performs no session filtering;
it behaves identically whatever the capture flags are, so events produced by
an ended session are applied exactly as events of the live one. -/
theorem c3_handler_ignores_capture_state (r : TranscriptionResult)
    (s : HookState) (b c : Bool) :
    handleTranscription r
        { s with isRecording := b, isPushToTalkActive := c } =
      { handleTranscription r s with
        isRecording := b, isPushToTalkActive := c } := by
  by_cases hr : r.isFinal <;> simp [handleTranscription, hr]

/-- C10: the Transcript handlers of the two DeepgramService variants parse
every inbound message identically. -/
theorem c10_transcript_handlers_equal (m : DgMessage) (now : ℕ) :
    transcriptHandlerV1 m now = transcriptHandlerV2 m now := rfl

/-- C4: the Transcript handler yields at most one event per inbound message
(its result is an `Option`); a message whose transcript is empty or absent
yields none; and any emitted event carries `isFinal` equal to the OR of the
two finality flags (defaulting to false) and the message's confidence
(defaulting to 0). -/
theorem c4_parser_shape (m : DgMessage) (now : ℕ) :
    ((msgTranscript m = some "" ∨ msgTranscript m = none) →
      transcriptHandlerV2 m now = none) ∧
    (∀ r, transcriptHandlerV2 m now = some r →
      r.isFinal = (m.is_final.getD false || m.speech_final.getD false) ∧
      r.confidence = (msgConfidence m).getD 0 ∧
      ∃ t, msgTranscript m = some t ∧ t ≠ "" ∧ r.text = t) := by
  constructor
  · rintro (h | h) <;> simp [transcriptHandlerV2, h]
  · intro r hr
    unfold transcriptHandlerV2 at hr
    cases hm : msgTranscript m with
    | none => rw [hm] at hr; exact absurd hr (by simp)
    | some t =>
        rw [hm] at hr
        by_cases ht : t = ""
        · simp [ht] at hr
        · simp only [ht, if_false, reduceIte, Option.some.injEq] at hr
          subst hr
          exact ⟨rfl, rfl, t, rfl, ht, rfl⟩

/-- Witness for C4: a concrete empty-transcript message yields no event, and
a concrete message with transcript "hi", only `speech_final` set and no
confidence yields an event with `isFinal = true` and confidence 0. -/
theorem c4_parser_shape_witness :
    transcriptHandlerV2
        (DgMessage.mk (some (DgChannel.mk (some [DgAlternative.mk (some "") (some 1)])))
          (some true) none) 0 = none ∧
    ((TranscriptionResult.mk "hi" true 0 3).isFinal =
        ((DgMessage.mk (some (DgChannel.mk (some [DgAlternative.mk (some "hi") none])))
            none (some true)).is_final.getD false ||
          (DgMessage.mk (some (DgChannel.mk (some [DgAlternative.mk (some "hi") none])))
            none (some true)).speech_final.getD false) ∧
      (TranscriptionResult.mk "hi" true 0 3).confidence =
        (msgConfidence
          (DgMessage.mk (some (DgChannel.mk (some [DgAlternative.mk (some "hi") none])))
            none (some true))).getD 0 ∧
      ∃ t, msgTranscript
          (DgMessage.mk (some (DgChannel.mk (some [DgAlternative.mk (some "hi") none])))
            none (some true)) = some t ∧ t ≠ "" ∧
        (TranscriptionResult.mk "hi" true 0 3).text = t) :=
  ⟨(c4_parser_shape
      (DgMessage.mk (some (DgChannel.mk (some [DgAlternative.mk (some "") (some 1)])))
        (some true) none) 0).1 (Or.inl rfl),
   (c4_parser_shape
      (DgMessage.mk (some (DgChannel.mk (some [DgAlternative.mk (some "hi") none])))
        none (some true)) 3).2 (TranscriptionResult.mk "hi" true 0 3) rfl⟩

/-- C5: calling `connect` while a connection is live first tears the old one
down and then creates exactly one fresh connection: afterwards the live set
is exactly the new socket and the old one is closed.  The hypotheses say the
key is present, the tracked connection is the only live socket, and its
identifier was allocated earlier than the next fresh one. -/
theorem c5_connect_single_live (apiKey : String) (st : DgConnState) (c : ℕ)
    (hkey : apiKey ≠ "") (hconn : st.connection = some c)
    (hlive : st.live = [c]) (hfresh : c < st.nextId) :
    (connectReplace apiKey st).live = [st.nextId] ∧
    (connectReplace apiKey st).connection = some st.nextId ∧
    c ∉ (connectReplace apiKey st).live := by
  have hrepl : connectReplace apiKey st =
      { st with
        connection := some st.nextId
        live := st.live.erase c ++ [st.nextId]
        nextId := st.nextId + 1
        keepAliveOn := true } := by
    simp [connectReplace, hkey, hconn]
  rw [hrepl, hlive]
  refine ⟨by simp, rfl, ?_⟩
  simp only [List.erase_cons_head, List.nil_append, List.mem_singleton]
  omega

/-- Witness for C5: a concrete service holding live socket 0 reconnects and
ends up with exactly the fresh socket 1. -/
theorem c5_connect_single_live_witness :
    (connectReplace "key" (DgConnState.mk (some 0) true [0] 1)).live = [1] ∧
    (connectReplace "key" (DgConnState.mk (some 0) true [0] 1)).connection = some 1 ∧
    0 ∉ (connectReplace "key" (DgConnState.mk (some 0) true [0] 1)).live :=
  c5_connect_single_live "key" (DgConnState.mk (some 0) true [0] 1) 0
    (by decide) rfl rfl (by decide)

/-- C6: when the connection is absent, or present but its socket reports a
ready state other than OPEN, `sendAudio` is a silent no-op: the service
state is unchanged and the chunk is not transmitted (the function is total,
so no exception is raised). -/
theorem c6_sendAudio_noop (st : DgConnState) (readyState : Option ℕ)
    (chunk : ℕ) (sent : List ℕ)
    (h : st.connection = none ∨ ∃ k, readyState = some k ∧ k ≠ 1) :
    sendAudio st readyState chunk sent = (st, sent) := by
  rcases h with h | ⟨k, hk, hne⟩
  · simp [sendAudio, h]
  · cases hc : st.connection with
    | none => simp [sendAudio, hc]
    | some cid => simp [sendAudio, isConnectionOpen, hc, hk, hne]

/-- Witness for C6: a concrete service whose socket reports ready state 3
(CLOSED) drops a concrete chunk without any state change. -/
theorem c6_sendAudio_noop_witness :
    sendAudio (DgConnState.mk (some 5) true [5] 6) (some 3) 9 [] =
      (DgConnState.mk (some 5) true [5] 6, []) :=
  c6_sendAudio_noop (DgConnState.mk (some 5) true [5] 6) (some 3) 9 []
    (Or.inr ⟨3, rfl, by decide⟩)

/-- Counterexample for C7: with the credential missing, `startPushToTalk`
does not leave the committed transcript unchanged, and the push-to-talk flag
becomes active rather than the state remaining Idle: it clears the previous
committed transcript before the credential check runs. -/
theorem c7_counterexample :
    (startPushToTalk "" (Env.mk (some true) none none)
        (HookState.mk false false ConnectionStatus.connected none "" "hello"
          (some true) true false)).finalTranscript ≠
      (HookState.mk false false ConnectionStatus.connected none "" "hello"
        (some true) true false).finalTranscript ∧
    (startPushToTalk "" (Env.mk (some true) none none)
        (HookState.mk false false ConnectionStatus.connected none "" "hello"
          (some true) true false)).isPushToTalkActive = true := by
  constructor
  · decide
  · rfl

/-- C7 amended: with the credential missing, `startRecording` fails with the
`'api'` (ConfigError) error and changes nothing else, so the capture state
stays Idle and both transcripts are untouched; `startPushToTalk`, however,
first activates push-to-talk and clears the committed transcript and only
then fails with the same error, leaving the pending transcript unchanged. -/
theorem c7_missing_key_effects (env : Env) (s : HookState) :
    startRecording "" env s = { s with error := some apiKeyMissingError } ∧
    startPushToTalk "" env s =
      { s with
        isPushToTalkActive := true
        finalTranscript := ""
        error := some apiKeyMissingError } := by
  exact ⟨rfl, rfl⟩

/-- Counterexample for C8: a Failed connection transition arriving while
Capturing does not stop the AudioSource: in a concrete capturing state with
the audio pipeline held, the pipeline is still held afterwards. -/
theorem c8_counterexample :
    (HookState.mk true true ConnectionStatus.connected none "hi" "prior"
      (some true) true true).isRecording = true ∧
    (dgErrorEvent (JsError.mk "")
        (HookState.mk true true ConnectionStatus.connected none "hi" "prior"
          (some true) true true)).audioActive ≠ false := by
  constructor
  · rfl
  · decide

/-- C8 amended: a Failed connection transition while Capturing immediately
returns the controller to Idle (both capture flags cleared), records the
connection status, surfaces the error to the consumer, and leaves the
committed transcript unchanged; the AudioSource is not stopped (its chunks
are subsequently dropped by `sendAudio`). -/
theorem c8_failed_while_capturing (e : JsError) (s : HookState)
    (_h : s.isRecording = true) :
    (dgErrorEvent e s).isRecording = false ∧
    (dgErrorEvent e s).isPushToTalkActive = false ∧
    (dgErrorEvent e s).connectionStatus = ConnectionStatus.error ∧
    (dgErrorEvent e s).error =
      some
        { type := determineErrorType (normalizeDgError e)
          message := (normalizeDgError e).message } ∧
    (dgErrorEvent e s).finalTranscript = s.finalTranscript ∧
    (dgErrorEvent e s).audioActive = s.audioActive := by
  refine ⟨rfl, rfl, rfl, rfl, rfl, rfl⟩

/-- Witness for C8 amended: the concrete capturing state of the
counterexample, run through the Failed transition. -/
theorem c8_failed_while_capturing_witness :
    (dgErrorEvent (JsError.mk "boom")
        (HookState.mk true true ConnectionStatus.connected none "hi" "prior"
          (some true) true true)).isRecording = false ∧
    (dgErrorEvent (JsError.mk "boom")
        (HookState.mk true true ConnectionStatus.connected none "hi" "prior"
          (some true) true true)).isPushToTalkActive = false ∧
    (dgErrorEvent (JsError.mk "boom")
        (HookState.mk true true ConnectionStatus.connected none "hi" "prior"
          (some true) true true)).connectionStatus = ConnectionStatus.error ∧
    (dgErrorEvent (JsError.mk "boom")
        (HookState.mk true true ConnectionStatus.connected none "hi" "prior"
          (some true) true true)).error =
      some
        { type := determineErrorType (normalizeDgError (JsError.mk "boom"))
          message := (normalizeDgError (JsError.mk "boom")).message } ∧
    (dgErrorEvent (JsError.mk "boom")
        (HookState.mk true true ConnectionStatus.connected none "hi" "prior"
          (some true) true true)).finalTranscript =
      (HookState.mk true true ConnectionStatus.connected none "hi" "prior"
        (some true) true true).finalTranscript ∧
    (dgErrorEvent (JsError.mk "boom")
        (HookState.mk true true ConnectionStatus.connected none "hi" "prior"
          (some true) true true)).audioActive =
      (HookState.mk true true ConnectionStatus.connected none "hi" "prior"
        (some true) true true).audioActive :=
  c8_failed_while_capturing (JsError.mk "boom")
    (HookState.mk true true ConnectionStatus.connected none "hi" "prior"
      (some true) true true) rfl

/-- Counterexample for C9: `stopPushToTalk` is not a no-op in an Idle state:
in a concrete Idle state holding a pending interim fragment, the call clears
that fragment. -/
theorem c9_counterexample :
    stopPushToTalk
        (HookState.mk false false ConnectionStatus.connected none "he" "hello"
          (some true) true false) ≠
      HookState.mk false false ConnectionStatus.connected none "he" "hello"
        (some true) true false := by
  decide

/-- C9 amended: `stopPushToTalk` always (even when already Idle) stops the
AudioSource, clears both capture flags and clears the pending transcript to
empty, and changes nothing else: the committed transcript, the connection
flag, the connection status, the error and the permission state are all
untouched, and the StreamingTranscriber connection is not closed. -/
theorem c9_endCapture_effects (s : HookState) :
    stopPushToTalk s =
      { s with
        isPushToTalkActive := false
        isRecording := false
        audioActive := false
        currentTranscript := "" } := rfl
